import Mathlib

/-!
Verification development for the SnakeKit Studio repository (src/src/App.tsx).

The file shallowly embeds the data model and the operations of the game:
the live simulation engine driven by the React interval callback, the
direction-input handlers (keyboard and touch), the food spawner, the
builder operations, and the game logic embedded in the two exported
artifacts (the HTML/JS artifact produced by exportHTML and the
Python/pygame artifact produced by doExport).

JavaScript numbers used as grid coordinates are modelled as Int (moves can
produce the value -1, which the wall check compares against 0).  Randomness
(Math.random) is modelled by explicit oracle parameters: an index into the
list of free cells for randomEmptyCell, and drawn cells / positivity of the
draw for the artifact spawner.
-/

namespace SnakeKit

set_option maxRecDepth 8000

/-- Grid position, App.tsx line 4: `type Position = \x7b x: number; y: number \x7d`. -/
@[ext]
structure Position where
  x : Int
  y : Int
deriving DecidableEq, Repr

/-- Direction, App.tsx line 6: `type Dir = 'UP' | 'DOWN' | 'LEFT' | 'RIGHT'`. -/
inductive Dir where
  | UP
  | DOWN
  | LEFT
  | RIGHT
deriving DecidableEq, Repr

/-- Builder cell kind, App.tsx line 5 (`kind: 'food' | 'obstacle'`). -/
inductive CellKind where
  | food
  | obstacle
deriving DecidableEq, Repr

/-- Builder cell, App.tsx line 5: `type BuilderCell = \x7b x, y, kind \x7d`. -/
structure BuilderCell where
  x : Int
  y : Int
  kind : CellKind
deriving DecidableEq, Repr

/-- App.tsx line 17: `const GRID_SIZE = 20`. -/
def GRID_SIZE : Int := 20

/-- App.tsx lines 19-23: the hard-coded start snake
`[\x7bx: floor(GRID_SIZE/2)-1, y: floor(GRID_SIZE/2)\x7d, \x7bx: floor(GRID_SIZE/2), ...\x7d, \x7bx: floor(GRID_SIZE/2)+1, ...\x7d]`,
head at index 0 (the tick callback reads `snake[0]` as the head). -/
def START_SNAKE : List Position :=
  [⟨GRID_SIZE / 2 - 1, GRID_SIZE / 2⟩,
   ⟨GRID_SIZE / 2, GRID_SIZE / 2⟩,
   ⟨GRID_SIZE / 2 + 1, GRID_SIZE / 2⟩]

/-- Unit delta of a direction, App.tsx lines 228-231: the tick callback
adjusts (nx, ny) by -1/+1 depending on `dir`. -/
def delta : Dir → Position
  | Dir.UP => ⟨0, -1⟩
  | Dir.DOWN => ⟨0, 1⟩
  | Dir.LEFT => ⟨-1, 0⟩
  | Dir.RIGHT => ⟨1, 0⟩

/-- Candidate next head: current head plus the direction delta
(App.tsx lines 225-231). -/
def candidate (head : Position) (d : Dir) : Position :=
  ⟨head.x + (delta d).x, head.y + (delta d).y⟩

/-- Wall test of App.tsx line 233:
`nx < 0 || ny < 0 || nx >= GRID_SIZE || ny >= GRID_SIZE`. -/
def outOfBounds (p : Position) : Prop :=
  p.x < 0 ∨ p.y < 0 ∨ GRID_SIZE ≤ p.x ∨ GRID_SIZE ≤ p.y

instance (p : Position) : Decidable (outOfBounds p) := by
  unfold outOfBounds; infer_instance

/-- Free cells of the grid, App.tsx lines 30-36 (randomEmptyCell): scan
y = 0..gridSize-1 outer, x = 0..gridSize-1 inner, keeping cells whose key
is not in the occupied set.  The JS string key `x,y` is injective on
positions, so the occupied string set is modelled as a position list. -/
def emptyCells (occupied : List Position) (gridSize : Int) : List Position :=
  (List.range gridSize.toNat).flatMap fun y =>
    (List.range gridSize.toNat).filterMap fun x =>
      let p : Position := ⟨Int.ofNat x, Int.ofNat y⟩
      if p ∈ occupied then none else some p

/-- App.tsx lines 29-39, randomEmptyCell: null when no cell is free,
otherwise `empty[floor(random * empty.length)]`.  The random draw is
modelled by the oracle index k, reduced mod the list length (every free
cell is reachable for a suitable draw). -/
def randomEmptyCell (occupied : List Position) (gridSize : Int) (k : Nat) :
    Option Position :=
  let empty := emptyCells occupied gridSize
  if h : empty.length = 0 then none
  else some (empty.get ⟨k % empty.length, Nat.mod_lt k (Nat.pos_of_ne_zero h)⟩)

/-- Mutable game state of the live engine, App.tsx lines 177-184:
snake, dir, foods, obstacles, speed (irrelevant to the transition rules),
paused, gameOver, score. -/
structure GameState where
  snake : List Position
  dir : Dir
  foods : List Position
  obstacles : List Position
  score : Nat
  paused : Bool
  gameOver : Bool
deriving DecidableEq, Repr

/-- Opposite-direction test of the live keyboard handler, App.tsx line 204:
`(dir === 'UP' && nd === 'DOWN') || (dir === 'DOWN' && nd === 'UP') ||
 (dir === 'LEFT' && nd === 'RIGHT') || (dir === 'RIGHT' && nd === 'LEFT')`. -/
def isOpposite : Dir → Dir → Bool
  | Dir.UP, Dir.DOWN => true
  | Dir.DOWN, Dir.UP => true
  | Dir.LEFT, Dir.RIGHT => true
  | Dir.RIGHT, Dir.LEFT => true
  | _, _ => false

/-- Direction filter of the live keyboard handler, App.tsx lines 203-213:
once the key has been mapped to a direction nd, the handler commits nd
unless it is the exact opposite of the current dir, in which case dir is
left unchanged.  (The key-to-direction table of lines 199-202 is factored
out; an unmapped key leaves the state untouched.) -/
def accept (current requested : Dir) : Dir :=
  if isOpposite current requested then current else requested

/-- Live tick transition, App.tsx lines 223-269 (the setInterval callback;
the interval only exists while not paused and not game over, lines
220-221).  Reads head = snake[0]; wall, self and obstacle checks fire in
that order and only set gameOver; otherwise the candidate head is
prepended, and either the first food equal to the candidate is removed
(findIndex + splice of that index, modelled as List.erase, which removes
the first occurrence), score is incremented and a replacement food is
appended when randomEmptyCell finds a free cell in
nextSnake ++ obstacles -- or, with no food hit, the tail is popped.
The closing parenthesis of the `occupied` Set literal is missing on source
line 260; the evident reading `[...nextSnake keys, ...obstacle keys]` is
embedded.  The oracle k feeds randomEmptyCell. -/
def tickStep (s : GameState) (k : Nat) : GameState :=
  if s.paused || s.gameOver then s
  else
    match s.snake with
    | [] => s
    | head :: _ =>
      let c := candidate head s.dir
      if outOfBounds c then { s with gameOver := true }
      else if c ∈ s.snake then { s with gameOver := true }
      else if c ∈ s.obstacles then { s with gameOver := true }
      else
        let nextSnake := c :: s.snake
        if c ∈ s.foods then
          let newFoods := s.foods.erase c
          let occupied := nextSnake ++ s.obstacles
          let foods2 :=
            match randomEmptyCell occupied GRID_SIZE k with
            | some p => newFoods ++ [p]
            | none => newFoods
          { s with snake := nextSnake, foods := foods2, score := s.score + 1 }
        else
          { s with snake := nextSnake.dropLast }

/-- Fold a list of spawn-oracle values through successive ticks. -/
def runTicks (s : GameState) (ks : List Nat) : GameState :=
  ks.foldl (fun t k => tickStep t k) s

/-- Touch handler, App.tsx lines 426-437 (onTouchEnd): compares the swipe
vector components (modelled as integers) and commits a direction with
setDir directly -- no anti-reversal filtering happens on this path. -/
def onTouchEnd (dir : Dir) (dx dy : Int) : Dir :=
  if dy.natAbs < dx.natAbs then
    if 20 < dx then Dir.RIGHT else if dx < -20 then Dir.LEFT else dir
  else
    if 20 < dy then Dir.DOWN else if dy < -20 then Dir.UP else dir

/-- Restart button handler, App.tsx line 518:
`setSnake(START_SNAKE); setDir('RIGHT'); setScore(0); setGameOver(false)`.
It does not touch foods, obstacles or paused. -/
def resetGame (g : GameState) : GameState :=
  { g with snake := START_SNAKE, dir := Dir.RIGHT, score := 0, gameOver := false }

/-! ## The exported HTML/JS artifact (exportHTML, App.tsx lines 73-164) -/

/-- Direction vector of the HTML artifact, line 95: `let dir = \x7b x:1, y:0 \x7d`. -/
structure DirVec where
  x : Int
  y : Int
deriving DecidableEq, Repr

/-- JavaScript strict equality between the artifact direction vector (an
object) and a direction string literal, used on artifact line 154
(`dir === 'UP'` etc. inside the generated script, App.tsx line 154).  In
JavaScript, `===` between an object and a string performs no coercion and
is always false. -/
def dirVecEqStr (_v : DirVec) (_d : Dir) : Bool := false

/-- Keydown handler embedded in the HTML artifact, App.tsx lines 149-159.
The reversal guard compares the vector object `dir` against the strings
'UP'/'DOWN'/'LEFT'/'RIGHT' with `===`, so `opposite` is always false and
the new direction vector is always committed. -/
def htmlKeydown (dir : DirVec) (nd : Dir) : DirVec :=
  let opposite :=
    (dirVecEqStr dir Dir.UP && decide (nd = Dir.DOWN)) ||
    (dirVecEqStr dir Dir.DOWN && decide (nd = Dir.UP)) ||
    (dirVecEqStr dir Dir.LEFT && decide (nd = Dir.RIGHT)) ||
    (dirVecEqStr dir Dir.RIGHT && decide (nd = Dir.LEFT))
  if opposite then dir
  else
    match nd with
    | Dir.UP => ⟨0, -1⟩
    | Dir.DOWN => ⟨0, 1⟩
    | Dir.LEFT => ⟨-1, 0⟩
    | Dir.RIGHT => ⟨1, 0⟩

/-- Spawn helper embedded in the HTML artifact, App.tsx lines 131-139:
`const c = Math.random(); if (c > 0) \x7b pick p1 at random; if p1 is not in
the occupied set, push p1 and return \x7d; if (foods.length < 5) push a fresh
random cell p2` -- the second push performs no occupancy check.  The
oracle models the draws: cPos is the test c > 0, p1 and p2 the drawn
cells. -/
def htmlSpawnFoods (occupiedSet : List Position) (foods : List Position)
    (cPos : Bool) (p1 p2 : Position) : List Position :=
  if cPos ∧ p1 ∉ occupiedSet then foods ++ [p1]
  else if foods.length < 5 then foods ++ [p2]
  else foods

/-- State of the HTML artifact script, App.tsx lines 94-100. -/
structure HtmlState where
  snake : List Position
  dir : DirVec
  foods : List Position
  obstacles : List Position
  paused : Bool
  gameOver : Bool
deriving DecidableEq, Repr

/-- Step function embedded in the HTML artifact, App.tsx lines 118-144:
returns unchanged when gameOver or paused; wall, self and obstacle checks
on the candidate head in that order; unshift the new head; on a food hit,
splice out the first matching food (List.erase) and run the spawn helper
with the occupied set built on line 140 -- the set of post-move snake keys
with `.add(...obstacles.map(...))`, and a JS Set add call only consumes its
first argument, so at most the first obstacle joins the set; otherwise pop
the tail. -/
def htmlStep (s : HtmlState) (cPos : Bool) (p1 p2 : Position) : HtmlState :=
  if s.gameOver || s.paused then s
  else
    match s.snake with
    | [] => s
    | head :: _ =>
      let c : Position := ⟨head.x + s.dir.x, head.y + s.dir.y⟩
      if outOfBounds c then { s with gameOver := true }
      else if c ∈ s.snake then { s with gameOver := true }
      else if c ∈ s.obstacles then { s with gameOver := true }
      else
        let snake2 := c :: s.snake
        if c ∈ s.foods then
          let foods2 := s.foods.erase c
          let occupied := snake2 ++ s.obstacles.take 1
          { s with snake := snake2,
                   foods := htmlSpawnFoods occupied foods2 cPos p1 p2 }
        else
          { s with snake := snake2.dropLast }

/-! ## The exported Python/pygame artifact (doExport, App.tsx lines 352-412) -/

/-- Python runtime value for grid cells in the exported desktop script.
The snake cells are tuples `(x, y)` (App.tsx line 371), but foods and
obstacles are JSON-serialized as dicts `\x7b"x": ..., "y": ...\x7d`
(lines 373-374), and Python equality between a tuple and a dict is false,
which matters for the membership test `(nx,ny) in self.foods`. -/
inductive PyVal where
  | tup : Int → Int → PyVal
  | dict : Int → Int → PyVal
deriving DecidableEq, Repr

/-- State of the exported Python script, App.tsx lines 371-375: snake as
tuples, foods and obstacles as JSON dicts, fixed dir = (1,0) (never
updated: the event loop handles only QUIT), and the running flag. -/
structure PyState where
  snake : List (Int × Int)
  dirx : Int
  diry : Int
  foods : List PyVal
  obstacles : List PyVal
  running : Bool
deriving DecidableEq, Repr

/-- One iteration of the Python run loop, App.tsx lines 383-396: wall
check, self-collision check against the pre-move body, insert the new
head, then `if (nx,ny) in self.foods: self.foods.remove((nx,ny)) else:
self.snake.pop()`.  There is no obstacle check and no score.  The food
membership test compares the tuple (nx,ny) against JSON dicts. -/
def pyStep (s : PyState) : PyState :=
  if s.running = false then s
  else
    match s.snake with
    | [] => s
    | (hx, hy) :: _ =>
      let nx := hx + s.dirx
      let ny := hy + s.diry
      if nx < 0 ∨ ny < 0 ∨ GRID_SIZE ≤ nx ∨ GRID_SIZE ≤ ny then
        { s with running := false }
      else if (nx, ny) ∈ s.snake then
        { s with running := false }
      else
        let snake2 := (nx, ny) :: s.snake
        if PyVal.tup nx ny ∈ s.foods then
          { s with snake := snake2, foods := s.foods.erase (PyVal.tup nx ny) }
        else
          { s with snake := snake2.dropLast }

/-! ## Builder operations and the reachable states of the app -/

/-- Foods derived from the builder, App.tsx line 174:
`builder.filter(b => b.kind === 'food').map(b => (\x7bx, y\x7d))`. -/
def buildFoods (b : List BuilderCell) : List Position :=
  (b.filter fun c => c.kind = CellKind.food).map fun c => ⟨c.x, c.y⟩

/-- Obstacles derived from the builder, App.tsx line 175. -/
def buildObstacles (b : List BuilderCell) : List Position :=
  (b.filter fun c => c.kind = CellKind.obstacle).map fun c => ⟨c.x, c.y⟩

/-- The addToBuilder helper, App.tsx lines 440-446: place a cell of the
given kind at the grid center floor(GRID_SIZE/2) unless some builder cell
already sits at that coordinate. -/
def addToBuilder (b : List BuilderCell) (kind : CellKind) : List BuilderCell :=
  let cx := GRID_SIZE / 2
  let cy := GRID_SIZE / 2
  if b.any fun c => c.x = cx ∧ c.y = cy then b
  else b ++ [⟨cx, cy, kind⟩]

/-- The onDrop handler, App.tsx lines 318-331: add a cell at the drop
coordinate when it is inside the grid and no builder cell occupies it. -/
def onDropAdd (b : List BuilderCell) (x y : Int) (kind : CellKind) :
    List BuilderCell :=
  if 0 ≤ x ∧ 0 ≤ y ∧ x < GRID_SIZE ∧ y < GRID_SIZE then
    if b.any fun c => c.x = x ∧ c.y = y then b
    else b ++ [⟨x, y, kind⟩]
  else b

/-- The removeCell helper, App.tsx lines 335-337:
`b.filter((_, i) => i !== idx)`, i.e. erase the element at that index. -/
def removeCell (b : List BuilderCell) (i : Nat) : List BuilderCell :=
  b.eraseIdx i

/-- Combined state of the app: the builder list plus the game state. -/
structure AppState where
  builder : List BuilderCell
  game : GameState
deriving DecidableEq, Repr

/-- Initial game state on mount, App.tsx lines 177-184: snake =
START_SNAKE, dir RIGHT, foods/obstacles from the (empty) builder, score 0,
not paused, not game over. -/
def initGame : GameState :=
  { snake := START_SNAKE, dir := Dir.RIGHT, foods := [], obstacles := [],
    score := 0, paused := false, gameOver := false }

/-- Effect of a builder update, App.tsx lines 187-192: the two useEffect
hooks overwrite foods and obstacles from the new builder list. -/
def applyBuilder (s : AppState) (b2 : List BuilderCell) : AppState :=
  ⟨b2, { s.game with foods := buildFoods b2, obstacles := buildObstacles b2 }⟩

/-- Keyboard input transition: the accepted direction becomes the pending
direction (App.tsx lines 195-217). -/
def appKey (s : AppState) (nd : Dir) : AppState :=
  ⟨s.builder, { s.game with dir := accept s.game.dir nd }⟩

/-- Swipe input transition, App.tsx lines 426-437. -/
def appSwipe (s : AppState) (dx dy : Int) : AppState :=
  ⟨s.builder, { s.game with dir := onTouchEnd s.game.dir dx dy }⟩

/-- Pause/resume button, App.tsx line 517: `setPaused(p => !p)`. -/
def appPause (s : AppState) : AppState :=
  ⟨s.builder, { s.game with paused := !s.game.paused }⟩

/-- Restart button, App.tsx line 518. -/
def appRestart (s : AppState) : AppState :=
  ⟨s.builder, resetGame s.game⟩

/-- One firing of the interval tick, App.tsx lines 223-269. -/
def appTick (s : AppState) (k : Nat) : AppState :=
  ⟨s.builder, tickStep s.game k⟩

/-- Reachable app states: the initial mount state, followed by any
sequence of builder edits (with their food/obstacle sync effects),
keyboard or swipe direction inputs, pause toggles, restarts and interval
ticks, with spawn randomness ranging over all oracle values. -/
inductive Reach : AppState → Prop
  | init : Reach ⟨[], initGame⟩
  | addB (s : AppState) (kind : CellKind) :
      Reach s → Reach (applyBuilder s (addToBuilder s.builder kind))
  | dropB (s : AppState) (x y : Int) (kind : CellKind) :
      Reach s → Reach (applyBuilder s (onDropAdd s.builder x y kind))
  | removeB (s : AppState) (i : Nat) :
      Reach s → Reach (applyBuilder s (removeCell s.builder i))
  | clearB (s : AppState) : Reach s → Reach (applyBuilder s [])
  | key (s : AppState) (nd : Dir) : Reach s → Reach (appKey s nd)
  | swipe (s : AppState) (dx dy : Int) : Reach s → Reach (appSwipe s dx dy)
  | pauseToggle (s : AppState) : Reach s → Reach (appPause s)
  | restart (s : AppState) : Reach s → Reach (appRestart s)
  | tick (s : AppState) (k : Nat) : Reach s → Reach (appTick s k)

/-- Invariant of a game state: the snake has no repeated cell and no
snake cell is an obstacle cell. -/
def goodInv (g : GameState) : Prop :=
  g.snake.Nodup ∧ ∀ p ∈ g.snake, p ∉ g.obstacles

instance (g : GameState) : Decidable (goodInv g) := by
  unfold goodInv; infer_instance

/-! ## Concrete fixtures used in the theorems below -/

/-- Generic RUNNING live-engine state with a nonempty snake: not paused,
not game over. -/
def mkRunning (hd : Position) (tl : List Position) (d : Dir)
    (foods obstacles : List Position) (score : Nat) : GameState :=
  { snake := hd :: tl, dir := d, foods := foods, obstacles := obstacles,
    score := score, paused := false, gameOver := false }

/-- The determinism fixture of the spec: gridSize 20, snake START_SNAKE
(head (9,10) at index 0), direction RIGHT, no obstacles, one food at
(15,10). -/
def fixtureC2 : GameState :=
  { snake := START_SNAKE, dir := Dir.RIGHT, foods := [⟨15, 10⟩], obstacles := [],
    score := 0, paused := false, gameOver := false }

/-- Shared initial snake for the cross-artifact comparison (this is the
initial snake hard-coded in the Python artifact, head first). -/
def eqInitSnake : List Position := [⟨10, 10⟩, ⟨9, 10⟩, ⟨8, 10⟩]

/-- Live engine started on the shared comparison state: one obstacle two
cells ahead of the head, no foods, direction RIGHT. -/
def liveCmp : GameState :=
  { snake := eqInitSnake, dir := Dir.RIGHT, foods := [], obstacles := [⟨12, 10⟩],
    score := 0, paused := false, gameOver := false }

/-- HTML artifact started on the same comparison state (dir vector (1,0)
is RIGHT). -/
def htmlCmp : HtmlState :=
  { snake := eqInitSnake, dir := ⟨1, 0⟩, foods := [], obstacles := [⟨12, 10⟩],
    paused := false, gameOver := false }

/-- Python artifact started on the same comparison state. -/
def pyCmp : PyState :=
  { snake := [(10, 10), (9, 10), (8, 10)], dirx := 1, diry := 0, foods := [],
    obstacles := [PyVal.dict 12 10], running := true }

/-- App state after clicking Add Obstacle on a fresh mount: the builder
places the obstacle at the grid center (10,10), which START_SNAKE
occupies. -/
def obstacleCenterApp : AppState :=
  applyBuilder ⟨[], initGame⟩ (addToBuilder [] CellKind.obstacle)

/-- App state reached by: drop a food at (9,9), press UP, let one tick
fire (the snake eats the food and a replacement spawns at (0,0) for
oracle 0), pause, then hit Restart. -/
def restartChain : AppState :=
  appRestart (appPause (appTick (appKey
    (applyBuilder ⟨[], initGame⟩ (onDropAdd [] 9 9 CellKind.food)) Dir.UP) 0))

/-- App state after dropping a food at (9,9). -/
def oneFoodApp : AppState :=
  applyBuilder ⟨[], initGame⟩ (onDropAdd [] 9 9 CellKind.food)

/-- App state after additionally dropping a food at (2,2). -/
def twoFoodApp : AppState :=
  applyBuilder oneFoodApp (onDropAdd oneFoodApp.builder 2 2 CellKind.food)

/-- App state after pressing UP and letting one tick fire with spawn
oracle 42: the snake eats the food at (9,9) and the spawner, whose
occupied set contains only the new snake and the obstacles, returns
(2,2) -- the position of the remaining food. -/
def dupFoodApp : AppState :=
  appTick (appKey twoFoodApp Dir.UP) 42

/-! ## Theorems -/

/-- C1: on identical initial snake, foods and obstacles (an obstacle two
cells ahead of the head, direction RIGHT) and identical inputs, the live
engine and the HTML artifact reach GAME_OVER on the second tick by the
obstacle-collision decision, while the Python artifact, which has no
obstacle check, is still running with its head sitting on the obstacle
cell: the three implementations do not make the same obstacle collision
decision at every tick. -/
theorem C1_obstacle_divergence :
    (tickStep (tickStep liveCmp 0) 0).gameOver = true ∧
    (tickStep (tickStep liveCmp 0) 0).score = 0 ∧
    (htmlStep (htmlStep htmlCmp true ⟨0, 0⟩ ⟨0, 0⟩) true ⟨0, 0⟩ ⟨0, 0⟩).gameOver = true ∧
    (pyStep (pyStep pyCmp)).running = true ∧
    (pyStep (pyStep pyCmp)).snake = [(12, 10), (11, 10), (10, 10)] := by
  refine ⟨by decide, by decide, by decide, by decide, by decide⟩

/-- C2 (counterexample): on the fixture with snake START_SNAKE (head
(9,10) at index 0), direction RIGHT and a food at (15,10), five ticks do
not produce head (15,10), Score 1 and length 4. -/
theorem C2_fixture_counterexample :
    ¬ ((runTicks fixtureC2 [0, 0, 0, 0, 0]).snake.head? = some ⟨15, 10⟩ ∧
       (runTicks fixtureC2 [0, 0, 0, 0, 0]).score = 1 ∧
       (runTicks fixtureC2 [0, 0, 0, 0, 0]).snake.length = 4) := by
  decide

/-- C2 (amended): on that fixture the very first tick ends the run,
because the candidate head (10,10) is a pre-move body cell of the snake;
after five ticks the state is GAME_OVER with Score 0 and the snake
unchanged. -/
theorem C2_fixture_gameover :
    tickStep fixtureC2 0 = { fixtureC2 with gameOver := true } ∧
    runTicks fixtureC2 [0, 0, 0, 0, 0] = { fixtureC2 with gameOver := true } ∧
    candidate ⟨9, 10⟩ Dir.RIGHT = ⟨10, 10⟩ ∧
    (⟨10, 10⟩ : Position) ∈ fixtureC2.snake := by
  refine ⟨by decide, by decide, by decide, by decide⟩

/-- C3: the live keyboard filter rejects the reversal (accept UP DOWN =
UP, accept RIGHT LEFT = RIGHT) and accepts a turn (accept UP LEFT =
LEFT), but the keydown handler embedded in the HTML artifact commits the
reversal: from the RIGHT vector (1,0) a LEFT key yields (-1,0), because
its opposite test compares the vector object against string literals and
is always false.  The two handlers do not apply the same filter. -/
theorem C3_html_reversal_accepted :
    accept Dir.UP Dir.DOWN = Dir.UP ∧
    accept Dir.UP Dir.LEFT = Dir.LEFT ∧
    accept Dir.RIGHT Dir.LEFT = Dir.RIGHT ∧
    htmlKeydown ⟨1, 0⟩ Dir.LEFT = ⟨-1, 0⟩ := by
  decide

/-- C4: in every RUNNING state (not paused, not game over, nonempty
snake), if the candidate head lies outside [0, gridSize) on either axis,
the tick sets gameOver and leaves snake, foods, obstacles and score
unchanged: the wall check happens before any mutation. -/
theorem C4_wall_check (hd : Position) (tl : List Position) (d : Dir)
    (foods obstacles : List Position) (score : Nat) (k : Nat)
    (hwall : outOfBounds (candidate hd d)) :
    tickStep (mkRunning hd tl d foods obstacles score) k =
      { mkRunning hd tl d foods obstacles score with gameOver := true } := by
  simp [tickStep, mkRunning, hwall]

/-- C4 (witness): head (19,10) moving RIGHT on the 20-grid: the next tick
is GAME_OVER with the score (7) unchanged. -/
theorem C4_wall_check_witness :
    outOfBounds (candidate ⟨19, 10⟩ Dir.RIGHT) ∧
    tickStep (mkRunning ⟨19, 10⟩ [⟨18, 10⟩] Dir.RIGHT [] [] 7) 0 =
      { mkRunning ⟨19, 10⟩ [⟨18, 10⟩] Dir.RIGHT [] [] 7 with gameOver := true } :=
  ⟨by decide, C4_wall_check ⟨19, 10⟩ [⟨18, 10⟩] Dir.RIGHT [] [] 7 0 (by decide)⟩

/-- C5: a tick applied in a RUNNING state that does not end in GAME_OVER
grows the snake by exactly one cell on a food hit (the candidate head is
prepended, no tail is popped, and the score rises by exactly 1), and
keeps length and score unchanged otherwise. -/
theorem C5_growth (hd : Position) (tl : List Position) (d : Dir)
    (foods obstacles : List Position) (score : Nat) (k : Nat)
    (hlive : (tickStep (mkRunning hd tl d foods obstacles score) k).gameOver = false) :
    (candidate hd d ∈ foods →
        (tickStep (mkRunning hd tl d foods obstacles score) k).snake =
          candidate hd d :: (hd :: tl) ∧
        (tickStep (mkRunning hd tl d foods obstacles score) k).snake.length =
          (hd :: tl).length + 1 ∧
        (tickStep (mkRunning hd tl d foods obstacles score) k).score = score + 1) ∧
    (candidate hd d ∉ foods →
        (tickStep (mkRunning hd tl d foods obstacles score) k).snake.length =
          (hd :: tl).length ∧
        (tickStep (mkRunning hd tl d foods obstacles score) k).score = score) := by
  by_cases hw : outOfBounds (candidate hd d)
  · simp [tickStep, mkRunning, hw] at hlive
  · by_cases hself : candidate hd d ∈ hd :: tl
    · simp [tickStep, mkRunning, hw, hself] at hlive
    · by_cases hobs : candidate hd d ∈ obstacles
      · simp [tickStep, mkRunning, hw, hself, hobs] at hlive
      · by_cases hfood : candidate hd d ∈ foods
        · refine ⟨fun _ => ?_, fun h => absurd hfood h⟩
          simp [tickStep, mkRunning, hw, hself, hobs, hfood]
        · refine ⟨fun h => absurd h hfood, fun _ => ?_⟩
          simp [tickStep, mkRunning, hw, hself, hobs, hfood]

/-- C5 (witness): length-1 snake at (0,0) moving RIGHT onto the food at
(1,0): the tick survives, the snake grows to length 2 and the score rises
from 0 to 1. -/
theorem C5_growth_witness :
    (tickStep (mkRunning ⟨0, 0⟩ [] Dir.RIGHT [⟨1, 0⟩] [] 0) 0).gameOver = false ∧
    ((candidate ⟨0, 0⟩ Dir.RIGHT ∈ ([⟨1, 0⟩] : List Position) →
        (tickStep (mkRunning ⟨0, 0⟩ [] Dir.RIGHT [⟨1, 0⟩] [] 0) 0).snake =
          candidate ⟨0, 0⟩ Dir.RIGHT :: [⟨0, 0⟩] ∧
        (tickStep (mkRunning ⟨0, 0⟩ [] Dir.RIGHT [⟨1, 0⟩] [] 0) 0).snake.length =
          [(⟨0, 0⟩ : Position)].length + 1 ∧
        (tickStep (mkRunning ⟨0, 0⟩ [] Dir.RIGHT [⟨1, 0⟩] [] 0) 0).score = 0 + 1) ∧
     (candidate ⟨0, 0⟩ Dir.RIGHT ∉ ([⟨1, 0⟩] : List Position) →
        (tickStep (mkRunning ⟨0, 0⟩ [] Dir.RIGHT [⟨1, 0⟩] [] 0) 0).snake.length =
          [(⟨0, 0⟩ : Position)].length ∧
        (tickStep (mkRunning ⟨0, 0⟩ [] Dir.RIGHT [⟨1, 0⟩] [] 0) 0).score = 0)) :=
  ⟨by decide, C5_growth ⟨0, 0⟩ [] Dir.RIGHT [⟨1, 0⟩] [] 0 0 (by decide)⟩

/-- C6: the spawn helper embedded in the HTML artifact can place a food
on an occupied cell: with occupied set \x7b(5,5)\x7d, empty food list, a
positive first draw that picks the occupied cell (5,5) and a fallback
draw that also picks (5,5), the fallback push performs no occupancy check
and the resulting food list contains the occupied cell -- while the live
engine spawner on the same occupied set returns the free cell (0,0). -/
theorem C6_html_spawn_overlap :
    htmlSpawnFoods [⟨5, 5⟩] [] true ⟨5, 5⟩ ⟨5, 5⟩ = [⟨5, 5⟩] ∧
    (⟨5, 5⟩ : Position) ∈ ([⟨5, 5⟩] : List Position) ∧
    randomEmptyCell [⟨5, 5⟩] GRID_SIZE 0 = some ⟨0, 0⟩ ∧
    (⟨0, 0⟩ : Position) ∉ ([⟨5, 5⟩] : List Position) := by
  refine ⟨by decide, by decide, by decide, by decide⟩

/-- C7 (counterexample): a reachable non-GAME_OVER state in which a snake
cell equals an obstacle cell: clicking Add Obstacle on a fresh mount
places the obstacle at the grid center (10,10), a cell of START_SNAKE,
and the run is still RUNNING. -/
theorem C7_overlap_counterexample :
    Reach obstacleCenterApp ∧
    obstacleCenterApp.game.gameOver = false ∧
    obstacleCenterApp.game.paused = false ∧
    (⟨10, 10⟩ : Position) ∈ obstacleCenterApp.game.snake ∧
    (⟨10, 10⟩ : Position) ∈ obstacleCenterApp.game.obstacles ∧
    ¬ (∀ p ∈ obstacleCenterApp.game.snake, p ∉ obstacleCenterApp.game.obstacles) := by
  refine ⟨Reach.addB _ CellKind.obstacle Reach.init,
    by decide, by decide, by decide, by decide, by decide⟩

/-- C7 (amended): the tick transition preserves the disjointness
invariant (snake cells pairwise distinct and disjoint from the
obstacles), so it holds in every state reached by ticks from a
well-formed start; and the self-collision check runs against the pre-move
body, so a snake of length 1 never self-collides in any direction.  (The
unamended claim fails only at builder-constructed initial states, where
an obstacle can be placed on a snake cell.) -/
theorem C7_invariant_preserved (g : GameState) (k : Nat) (hinv : goodInv g) :
    goodInv (tickStep g k) ∧
    ∀ (p : Position) (d : Dir), candidate p d ∉ ([p] : List Position) := by
  constructor
  · obtain ⟨snake, dir, foods, obstacles, score, paused, gameOver⟩ := g
    simp only [goodInv] at hinv ⊢
    obtain ⟨hnd, hdisj⟩ := hinv
    by_cases hpg : (paused || gameOver) = true
    · have hres : tickStep ⟨snake, dir, foods, obstacles, score, paused, gameOver⟩ k =
          ⟨snake, dir, foods, obstacles, score, paused, gameOver⟩ := by
        simp [tickStep, hpg]
      simp only [hres]
      exact ⟨hnd, hdisj⟩
    · cases snake with
      | nil =>
        have hres : tickStep ⟨[], dir, foods, obstacles, score, paused, gameOver⟩ k =
            ⟨[], dir, foods, obstacles, score, paused, gameOver⟩ := by
          simp [tickStep, hpg]
        simp only [hres]
        exact ⟨hnd, hdisj⟩
      | cons hd tl =>
        by_cases hw : outOfBounds (candidate hd dir)
        · have hsn : (tickStep ⟨hd :: tl, dir, foods, obstacles, score, paused, gameOver⟩
              k).snake = hd :: tl := by
            simp [tickStep, hpg, hw]
          have hob : (tickStep ⟨hd :: tl, dir, foods, obstacles, score, paused, gameOver⟩
              k).obstacles = obstacles := by
            simp [tickStep, hpg, hw]
          simp only [hsn, hob]
          exact ⟨hnd, hdisj⟩
        · by_cases hself : candidate hd dir ∈ hd :: tl
          · have hsn : (tickStep ⟨hd :: tl, dir, foods, obstacles, score, paused, gameOver⟩
                k).snake = hd :: tl := by
              simp [tickStep, hpg, hw, hself]
            have hob : (tickStep ⟨hd :: tl, dir, foods, obstacles, score, paused, gameOver⟩
                k).obstacles = obstacles := by
              simp [tickStep, hpg, hw, hself]
            simp only [hsn, hob]
            exact ⟨hnd, hdisj⟩
          · by_cases hobs : candidate hd dir ∈ obstacles
            · have hsn : (tickStep ⟨hd :: tl, dir, foods, obstacles, score, paused, gameOver⟩
                  k).snake = hd :: tl := by
                simp [tickStep, hpg, hw, hself, hobs]
              have hob : (tickStep ⟨hd :: tl, dir, foods, obstacles, score, paused, gameOver⟩
                  k).obstacles = obstacles := by
                simp [tickStep, hpg, hw, hself, hobs]
              simp only [hsn, hob]
              exact ⟨hnd, hdisj⟩
            · have hnd2 : (candidate hd dir :: hd :: tl).Nodup :=
                List.nodup_cons.mpr ⟨hself, hnd⟩
              have hdisj2 : ∀ p ∈ candidate hd dir :: hd :: tl, p ∉ obstacles := by
                intro p hp
                rcases List.mem_cons.mp hp with h | h
                · exact h ▸ hobs
                · exact hdisj p h
              by_cases hfood : candidate hd dir ∈ foods
              · have hsn : (tickStep ⟨hd :: tl, dir, foods, obstacles, score, paused,
                    gameOver⟩ k).snake = candidate hd dir :: hd :: tl := by
                  simp [tickStep, hpg, hw, hself, hobs, hfood]
                have hob : (tickStep ⟨hd :: tl, dir, foods, obstacles, score, paused,
                    gameOver⟩ k).obstacles = obstacles := by
                  simp [tickStep, hpg, hw, hself, hobs, hfood]
                simp only [hsn, hob]
                exact ⟨hnd2, hdisj2⟩
              · have hsn : (tickStep ⟨hd :: tl, dir, foods, obstacles, score, paused,
                    gameOver⟩ k).snake = (candidate hd dir :: hd :: tl).dropLast := by
                  simp [tickStep, hpg, hw, hself, hobs, hfood]
                have hob : (tickStep ⟨hd :: tl, dir, foods, obstacles, score, paused,
                    gameOver⟩ k).obstacles = obstacles := by
                  simp [tickStep, hpg, hw, hself, hobs, hfood]
                have hsub : List.Sublist ((candidate hd dir :: hd :: tl).dropLast)
                    (candidate hd dir :: hd :: tl) := List.dropLast_sublist _
                simp only [hsn, hob]
                exact ⟨hnd2.sublist hsub, fun p hp => hdisj2 p (hsub.subset hp)⟩
  · intro p d hmem
    rw [List.mem_singleton] at hmem
    have hx := congrArg Position.x hmem
    have hy := congrArg Position.y hmem
    cases d <;> simp [candidate, delta] at hx hy

/-- C7 (witness): the invariant holds on the fresh mount state and is
preserved by a tick from it. -/
theorem C7_invariant_preserved_witness :
    goodInv initGame ∧
    (goodInv (tickStep initGame 0) ∧
     ∀ (p : Position) (d : Dir), candidate p d ∉ ([p] : List Position)) :=
  ⟨by decide, C7_invariant_preserved initGame 0 (by decide)⟩

/-- C8 (counterexample): a reachable state that refutes the reset claim:
drop a food at (9,9), turn UP, let the snake eat it on one tick (the
spawner replaces it at (0,0)), pause, then hit Restart.  After Restart
the run is still paused (not RUNNING) and the food set is the leftover
(0,0), not the builder initialFoods [(9,9)]. -/
theorem C8_restart_counterexample :
    Reach restartChain ∧
    restartChain.game.paused = true ∧
    restartChain.game.gameOver = false ∧
    buildFoods restartChain.builder = [⟨9, 9⟩] ∧
    restartChain.game.foods = [⟨0, 0⟩] ∧
    ¬ (restartChain.game.paused = false ∧
       restartChain.game.foods = buildFoods restartChain.builder) := by
  refine ⟨Reach.restart _ (Reach.pauseToggle _ (Reach.tick _ 0 (Reach.key _ Dir.UP
      (Reach.dropB _ 9 9 CellKind.food Reach.init)))),
    by decide, by decide, by decide, by decide, by decide⟩

/-- C8 (amended): the Restart handler resets the snake to START_SNAKE,
the direction to RIGHT, the score to 0 and clears the game-over flag,
from any state; it leaves the food set, the paused flag and the obstacles
unchanged -- so from PAUSED it stays paused, and the food set is not
reinitialized from the builder initialFoods. -/
theorem C8_restart_partial (g : GameState) :
    (resetGame g).snake = START_SNAKE ∧
    (resetGame g).dir = Dir.RIGHT ∧
    (resetGame g).score = 0 ∧
    (resetGame g).gameOver = false ∧
    (resetGame g).foods = g.foods ∧
    (resetGame g).paused = g.paused ∧
    (resetGame g).obstacles = g.obstacles := by
  simp [resetGame]

/-- C9: a swipe is not passed through the direction filter before being
committed: with current direction RIGHT, a left swipe (dx = -30, dy = 0)
commits LEFT, the exact opposite of RIGHT -- the committed pending
direction would have been RIGHT had the filter been applied, as it is on
the keyboard path. -/
theorem C9_swipe_reversal :
    onTouchEnd Dir.RIGHT (-30) 0 = Dir.LEFT ∧
    isOpposite Dir.RIGHT Dir.LEFT = true ∧
    accept Dir.RIGHT Dir.LEFT = Dir.RIGHT := by
  decide

/-- C10: a reachable state in which the food set holds two equal
positions after an eating tick: with foods at (9,9) and (2,2), turning UP
and eating (9,9), the spawner is called with occupied set new snake plus
obstacles -- the remaining foods are excluded -- and (for spawn oracle
42) returns (2,2), so the food set becomes [(2,2), (2,2)]. -/
theorem C10_duplicate_food :
    Reach dupFoodApp ∧
    dupFoodApp.game.score = 1 ∧
    dupFoodApp.game.foods = [⟨2, 2⟩, ⟨2, 2⟩] ∧
    ¬ dupFoodApp.game.foods.Nodup := by
  refine ⟨Reach.tick _ 42 (Reach.key _ Dir.UP (Reach.dropB _ 2 2 CellKind.food
      (Reach.dropB _ 9 9 CellKind.food Reach.init))),
    by decide, by decide, by decide⟩

end SnakeKit
